import Mathlib

/-!
Shallow embedding of `src/server.js` (taxe-server): a socket.io game server
holding a registry `games` of two-player sessions, per-socket connection
state (`socket.gameID`, `socket.role`), and handlers `LG`, `CG`, `JG`, `M`,
`ET`, `disconnect`.

Modelling conventions:
* the opaque game-data blob is a byte sequence, `List Nat`;
* a socket is identified by a natural number (`SocketId`); the per-socket
  fields `gameID`/`role` live in a side table keyed by `SocketId`;
* the JS object `games` is an association list `List (GameCode × Session)`;
  `games[k] = v` is `upsert`, `delete games[k]` is `aerase`, property read
  is `alookup`;
* `Math.random().toString(36).substring(2, 7)` is nondeterministic, so the
  `CG` handler takes the stream of generated candidates as an explicit list
  and the do-while loop becomes `List.find?` over it (`none` models the
  loop not terminating on the supplied candidates); `new Date()` becomes an
  explicit `now : Nat` parameter;
* each handler returns an `Outcome`: the argument passed to `respond` (if
  `respond` was reached), the list of `emit` notifications actually sent,
  and a `crashed` flag which is set exactly when the JS code would throw
  (dereference a property of `undefined`/`null`), together with the server
  state as mutated up to that point.
-/

abbrev GameData := List Nat

abbrev SocketId := Nat

abbrev GameCode := String

section AssocListOps

variable {κ β : Type} [DecidableEq κ]

/-- Property read on a JS object viewed as an association list. -/
def alookup (l : List (κ × β)) (k : κ) : Option β :=
  (l.find? (fun p => p.1 = k)).map Prod.snd

/-- `l[k] = v` on a JS object: overwrite the key in place if present, else
add the pair at the end (JS object keys are unique, so overwriting the
first occurrence is the JS assignment). -/
def upsert : List (κ × β) → κ → β → List (κ × β)
  | [], k, v => [(k, v)]
  | a :: l, k, v => if a.1 = k then (k, v) :: l else a :: upsert l k v

/-- `delete l[k]` on a JS object. -/
def aerase (l : List (κ × β)) (k : κ) : List (κ × β) :=
  l.filter (fun p => ¬ p.1 = k)

/-- The key list of a JS object. -/
def akeys (l : List (κ × β)) : List κ :=
  l.map Prod.fst

end AssocListOps

/-- `socket.role`: `'master'` or `'slave'` (`null` is modelled by `Option`). -/
inductive Role
  | master
  | slave
deriving DecidableEq, Repr

/-- One entry of the `games` object (see the example property in server.js):
name, difficulty, `players.master`, `players.slave`, created, data,
`sockets.master`, `sockets.slave`. -/
structure Session where
  name : String
  difficulty : Int
  playersMaster : String
  playersSlave : Option String
  created : Nat
  data : GameData
  socketsMaster : SocketId
  socketsSlave : Option SocketId
deriving DecidableEq, Repr

/-- The per-socket fields `socket.gameID` and `socket.role`. -/
structure ConnState where
  gameID : Option GameCode
  role : Option Role
deriving DecidableEq, Repr

/-- Connection state right after `connection`: both fields `null`. -/
def ConnState.empty : ConnState := ⟨none, none⟩

/-- The whole server state: the `games` object plus the side table of
per-socket connection states. -/
structure ServerState where
  games : List (GameCode × Session)
  conns : List (SocketId × ConnState)
deriving DecidableEq, Repr

/-- State at server start: no games, no connections. -/
def ServerState.init : ServerState := ⟨[], []⟩

/-- Read a socket's connection state (a never-seen socket has the
post-`connection` state: both fields `null`). -/
def getConn (st : ServerState) (sid : SocketId) : ConnState :=
  (alookup st.conns sid).getD ConnState.empty

/-- Write a socket's connection state. -/
def setConn (st : ServerState) (sid : SocketId) (c : ConnState) : ServerState :=
  { st with conns := upsert st.conns sid c }

/-- Server-initiated pushes: `GS` (game started), `PP` (play your turn, with
the game data), `EG` (end of game). -/
inductive Notif
  | GS
  | PP (d : GameData)
  | EG
deriving DecidableEq, Repr

/-- The `{ ok: bool, <error: string> }` objects passed to `respond` by the
`JG`/`M`/`ET` handlers. -/
structure Status where
  ok : Bool
  error : Option String
deriving DecidableEq, Repr

/-- Error message of `JG` when the game does not exist. -/
def errNotFound : String := "Sorry, the Game could not be found."

/-- Error message of `JG` on a nickname collision. -/
def errNameCollision : String := "Sorry, you cannot use the same nickname as your opponent."

/-- Error message of `M` for a caller that is not the slave player. -/
def errNotSlave : String := "Sorry, you are the master player or you have not joined a game."

/-- Error message of `ET` for a caller that is not the master player. -/
def errNotMaster : String := "Sorry, you are the slave player or you have not joined a game."

/-- What one handler invocation did: the value passed to `respond` (if the
handler reached a `respond` call), the notifications emitted as
`(target socket, notification)` in order, and whether the handler threw. -/
structure Outcome (ρ : Type) where
  response : Option ρ
  emits : List (SocketId × Notif)
  crashed : Bool
deriving DecidableEq, Repr

/-- One entry of the list the `LG` handler responds with. -/
structure GameEntry where
  id : GameCode
  name : String
  created : Nat
  difficulty : Int
deriving DecidableEq, Repr

/-- Handler `LG`: list every game whose `players.slave` is `null` as
`{id, name, created, difficulty}`. Reads only; never fails. -/
def handleLG (st : ServerState) : List GameEntry :=
  (st.games.filter (fun p => p.2.playersSlave = none)).map
    (fun p => ⟨p.1, p.2.name, p.2.created, p.2.difficulty⟩)

/-- The do-while loop of `CG`: try candidate codes in order until one is not
already a key of `games` (`none` when no supplied candidate is fresh). -/
def genGameID (games : List (GameCode × Session)) (cands : List GameCode) :
    Option GameCode :=
  cands.find? (fun c => (alookup games c).isNone)

/-- Game-name derivation of `CG`: `playerName.slice(-1) != 's' ?
playerName + "'s Game" : playerName + "' Game"` (on the empty string,
`slice(-1)` is `""`, so the first branch is taken). -/
def gameNameFor (playerName : String) : String :=
  if playerName.data.getLast? ≠ some 's' then
    playerName ++ "'s Game"
  else
    playerName ++ "' Game"

/-- Handler `CG`: generate a fresh game id, derive the game name, register
the new session (slave name and socket `null`), record `gameID`/`role` on
the calling socket, and respond with `{id, name, created, difficulty}`.
`none` models the id-generation loop finding no fresh candidate. -/
def handleCG (st : ServerState) (sid : SocketId) (playerName : String)
    (difficulty : Int) (gameData : GameData) (cands : List GameCode)
    (now : Nat) : Option (GameEntry × ServerState) :=
  match genGameID st.games cands with
  | none => none
  | some gameID =>
      let gameName := gameNameFor playerName
      let sess : Session :=
        { name := gameName
          difficulty := difficulty
          playersMaster := playerName
          playersSlave := none
          created := now
          data := gameData
          socketsMaster := sid
          socketsSlave := none }
      let st₁ : ServerState := { st with games := upsert st.games gameID sess }
      let st₂ := setConn st₁ sid ⟨some gameID, some Role.master⟩
      some (⟨gameID, gameName, now, difficulty⟩, st₂)

/-- Handler `JG`: respond with an error if the game id is unknown or the
joiner reuses the master's nickname; otherwise overwrite `players.slave`
and `sockets.slave` with the caller, record `gameID`/`role` on the caller,
respond ok, emit `GS` to the master socket and `PP` (with the game's
current data) to the caller. -/
def handleJG (st : ServerState) (sid : SocketId) (gameID : GameCode)
    (playerName : String) : Outcome Status × ServerState :=
  match alookup st.games gameID with
  | none => (⟨some ⟨false, some errNotFound⟩, [], false⟩, st)
  | some sess =>
      if sess.playersMaster = playerName then
        (⟨some ⟨false, some errNameCollision⟩, [], false⟩, st)
      else
        let sess' : Session :=
          { sess with playersSlave := some playerName, socketsSlave := some sid }
        let st₁ : ServerState := { st with games := upsert st.games gameID sess' }
        let st₂ := setConn st₁ sid ⟨some gameID, some Role.slave⟩
        (⟨some ⟨true, none⟩,
          [(sess.socketsMaster, Notif.GS), (sid, Notif.PP sess.data)], false⟩,
         st₂)

/-- Handler `M`: a caller whose role is not `'slave'` gets a structured
error. Otherwise the handler writes `games[socket.gameID].data = gameData`
with no existence check, so it throws when `socket.gameID` is `null` or
names a deleted game; else it stores the data, responds ok and emits `PP`
with the new data to the master socket. -/
def handleM (st : ServerState) (sid : SocketId) (gameData : GameData) :
    Outcome Status × ServerState :=
  let conn := getConn st sid
  if conn.role ≠ some Role.slave then
    (⟨some ⟨false, some errNotSlave⟩, [], false⟩, st)
  else
    match conn.gameID with
    | none => (⟨none, [], true⟩, st)
    | some gameID =>
        match alookup st.games gameID with
        | none => (⟨none, [], true⟩, st)
        | some sess =>
            let sess' : Session := { sess with data := gameData }
            let st₁ : ServerState := { st with games := upsert st.games gameID sess' }
            (⟨some ⟨true, none⟩, [(sess.socketsMaster, Notif.PP gameData)], false⟩,
             st₁)

/-- Handler `ET`: a caller whose role is not `'master'` gets a structured
error. Otherwise the handler stores the data (throwing first when
`socket.gameID` is `null` or names a deleted game), responds ok, and then
emits `PP` to `sockets.slave` — which throws when no slave has joined,
after the ok response and the data write already happened. -/
def handleET (st : ServerState) (sid : SocketId) (gameData : GameData) :
    Outcome Status × ServerState :=
  let conn := getConn st sid
  if conn.role ≠ some Role.master then
    (⟨some ⟨false, some errNotMaster⟩, [], false⟩, st)
  else
    match conn.gameID with
    | none => (⟨none, [], true⟩, st)
    | some gameID =>
        match alookup st.games gameID with
        | none => (⟨none, [], true⟩, st)
        | some sess =>
            let sess' : Session := { sess with data := gameData }
            let st₁ : ServerState := { st with games := upsert st.games gameID sess' }
            match sess.socketsSlave with
            | none => (⟨some ⟨true, none⟩, [], true⟩, st₁)
            | some sl =>
                (⟨some ⟨true, none⟩, [(sl, Notif.PP gameData)], false⟩, st₁)

/-- JS truthiness of `socket.gameID` as tested by `!socket.gameID`:
falsy when `null` or the empty string. -/
def isFalsyCode : Option GameCode → Bool
  | none => true
  | some s => s.isEmpty

/-- Handler `disconnect`: nothing to do when `socket.gameID` is falsy.
Otherwise read the game (throwing when it was already deleted), pick the
opponent socket by role complement; if it is non-null, emit `EG` to it and
null out its `gameID`/`role`; finally delete the game. -/
def handleDisconnect (st : ServerState) (sid : SocketId) :
    Outcome Unit × ServerState :=
  let conn := getConn st sid
  if isFalsyCode conn.gameID then
    (⟨none, [], false⟩, st)
  else
    match conn.gameID with
    | none => (⟨none, [], false⟩, st)
    | some gameID =>
        match alookup st.games gameID with
        | none => (⟨none, [], true⟩, st)
        | some sess =>
            let opponent : Option SocketId :=
              if conn.role = some Role.master then sess.socketsSlave
              else some sess.socketsMaster
            match opponent with
            | none =>
                (⟨none, [], false⟩, { st with games := aerase st.games gameID })
            | some opp =>
                let st₁ := setConn st opp ⟨none, none⟩
                (⟨none, [(opp, Notif.EG)], false⟩,
                 { st₁ with games := aerase st₁.games gameID })

/-- One inbound event, carrying the resolution of the nondeterminism
(`CG`'s random candidates and clock). -/
inductive Event
  | lg (sid : SocketId)
  | cg (sid : SocketId) (playerName : String) (difficulty : Int)
      (gameData : GameData) (cands : List GameCode) (now : Nat)
  | jg (sid : SocketId) (gameID : GameCode) (playerName : String)
  | m (sid : SocketId) (gameData : GameData)
  | et (sid : SocketId) (gameData : GameData)
  | disc (sid : SocketId)

/-- State transition of one event (the state component of the handlers;
a `CG` whose id generation fails leaves the state unchanged). -/
def step (st : ServerState) (e : Event) : ServerState :=
  match e with
  | .lg _ => st
  | .cg sid p d g cands now =>
      match handleCG st sid p d g cands now with
      | none => st
      | some (_, st') => st'
  | .jg sid gid p => (handleJG st sid gid p).2
  | .m sid d => (handleM st sid d).2
  | .et sid d => (handleET st sid d).2
  | .disc sid => (handleDisconnect st sid).2

/-- Run a list of events from a state. -/
def run (st : ServerState) (es : List Event) : ServerState :=
  es.foldl step st

/-- A state the server can actually be in. -/
def Reachable (st : ServerState) : Prop :=
  ∃ es : List Event, run ServerState.init es = st

/-! ### Association-list lemmas -/

section AssocListLemmas

variable {κ β : Type} [DecidableEq κ]


def RegInv (st : ServerState) : Prop :=
  (akeys st.games).Nodup ∧
    ∀ p ∈ st.games, (p.2.playersSlave = none ↔ p.2.socketsSlave = none)

def c6wEvents : List Event := [Event.cg 0 "Dana" 2 [3] ["gJ"] 5]

def c6wState : ServerState := run ServerState.init c6wEvents

def c7wEvents : List Event :=
  [Event.cg 0 "Al" 1 [0] ["gg"] 1, Event.cg 1 "Bea" 2 [0] ["gg", "hh"] 2]

def c7wState : ServerState := run ServerState.init c7wEvents

def c8wEvents : List Event :=
  [Event.cg 0 "Ada" 1 [0] ["aa"] 1, Event.cg 1 "Ben" 2 [0] ["bb"] 2,
   Event.jg 2 "bb" "Cy"]

def c8wState : ServerState := run ServerState.init c8wEvents

def c9wState : ServerState :=
  ⟨[("cc", ⟨"Chris' Game", 3, "Chris", none, 9, [1], 0, none⟩)],
   [(0, ⟨some "cc", some Role.master⟩)]⟩

def c10wEvents : List Event :=
  [Event.cg 0 "Ada" 1 [0] ["gw"] 1, Event.jg 1 "gw" "Ben"]

def c10wState : ServerState := run ServerState.init c10wEvents

def c10wSess : Session := ⟨"Ada's Game", 1, "Ada", some "Ben", 1, [0], 0, some 1⟩

def c1xEvents : List Event := [Event.cg 4 "Gil" 2 [1] ["gx"] 7]

def c1xState : ServerState := run ServerState.init c1xEvents

def c1wEvents : List Event := [Event.cg 0 "Hal" 1 [0] ["gh"] 3]

def c1wState : ServerState := run ServerState.init c1wEvents

def c2xEvents : List Event := [Event.cg 0 "Amy" 1 [7] ["ga"] 100]

def c2xState : ServerState := run ServerState.init c2xEvents

def c2wEvents : List Event :=
  [Event.cg 0 "Ida" 1 [0] ["gi"] 6, Event.jg 1 "gi" "Joe"]

def c2wState : ServerState := run ServerState.init c2wEvents

def c2wSess : Session := ⟨"Ida's Game", 1, "Ida", some "Joe", 6, [0], 0, some 1⟩

def c3xEvents : List Event :=
  [Event.cg 0 "Ann" 1 [7] ["g1"] 10, Event.jg 1 "g1" "Ben",
   Event.jg 2 "g1" "Cal", Event.disc 0]

def c3xState : ServerState := run ServerState.init c3xEvents

def c3wEvents : List Event :=
  [Event.cg 0 "Ora" 2 [3] ["gm"] 4, Event.jg 1 "gm" "Pat"]

def c3wState : ServerState := run ServerState.init c3wEvents

def c3wSess : Session := ⟨"Ora's Game", 2, "Ora", some "Pat", 4, [3], 0, some 1⟩

def c4xPreEvents : List Event :=
  [Event.cg 0 "Ada" 1 [0] ["g4"] 10, Event.jg 1 "g4" "Bob"]

def c4xPre : ServerState := run ServerState.init c4xPreEvents

def c4xEvents : List Event := c4xPreEvents ++ [Event.m 1 [1]]

def c4xState : ServerState := run ServerState.init c4xEvents

def c4wEvents : List Event :=
  [Event.cg 0 "Uma" 1 [0] ["g9"] 2, Event.jg 1 "g9" "Vic"]

def c4wState : ServerState := run ServerState.init c4wEvents

def c5xEvents : List Event :=
  [Event.cg 0 "Al" 1 [7] ["g5"] 10, Event.jg 1 "g5" "Bo",
   Event.jg 2 "g5" "Cy", Event.disc 0]

def c5xState : ServerState := run ServerState.init c5xEvents

def c5wEvents : List Event :=
  [Event.cg 0 "Kim" 1 [2] ["g6"] 3, Event.jg 1 "g6" "Lee"]

def c5wState : ServerState := run ServerState.init c5wEvents

def c5wSess : Session := ⟨"Kim's Game", 1, "Kim", some "Lee", 3, [2], 0, some 1⟩

theorem alookup_nil (k : κ) : alookup ([] : List (κ × β)) k = none := rfl

theorem alookup_cons (a : κ × β) (l : List (κ × β)) (k : κ) :
    alookup (a :: l) k = if a.1 = k then some a.2 else alookup l k := by
  by_cases h : a.1 = k <;> simp [alookup, List.find?_cons, h]

theorem alookup_eq_none_iff (l : List (κ × β)) (k : κ) :
    alookup l k = none ↔ k ∉ akeys l := by
  induction l with
  | nil => simp [alookup_nil, akeys]
  | cons a l ih =>
      rw [alookup_cons]
      by_cases h : a.1 = k
      · simp [h, akeys]
      · simp only [if_neg h, ih, akeys, List.map_cons, List.mem_cons]
        constructor
        · rintro hk (rfl | hm)
          · exact h rfl
          · exact hk hm
        · intro hk hm
          exact hk (Or.inr hm)

theorem akeys_upsert_mem (l : List (κ × β)) (k : κ) (v : β) (h : k ∈ akeys l) :
    akeys (upsert l k v) = akeys l := by
  induction l with
  | nil => simp [akeys] at h
  | cons a l ih =>
      rw [upsert]
      by_cases ha : a.1 = k
      · rw [if_pos ha]
        simp [akeys, ha]
      · rw [if_neg ha]
        have hm : k ∈ akeys l := by
          simp only [akeys, List.map_cons, List.mem_cons] at h
          rcases h with h | h
          · exact absurd h.symm ha
          · exact h
        have hih := ih hm
        simp only [akeys] at hih
        simp [akeys, hih]

theorem akeys_upsert_not_mem (l : List (κ × β)) (k : κ) (v : β) (h : k ∉ akeys l) :
    akeys (upsert l k v) = akeys l ++ [k] := by
  induction l with
  | nil => rfl
  | cons a l ih =>
      rw [upsert]
      have ha : ¬ a.1 = k := by
        intro hc
        exact h (by simp [akeys, hc])
      rw [if_neg ha]
      have hm : k ∉ akeys l := by
        intro hc
        exact h (by simp [akeys] at hc ⊢; exact Or.inr hc)
      have hih := ih hm
      simp only [akeys] at hih
      simp [akeys, hih]

theorem nodup_akeys_upsert (l : List (κ × β)) (k : κ) (v : β)
    (h : (akeys l).Nodup) : (akeys (upsert l k v)).Nodup := by
  by_cases hm : k ∈ akeys l
  · rw [akeys_upsert_mem l k v hm]; exact h
  · rw [akeys_upsert_not_mem l k v hm]
    simp [List.nodup_append, h, hm]

theorem alookup_upsert_self (l : List (κ × β)) (k : κ) (v : β) :
    alookup (upsert l k v) k = some v := by
  induction l with
  | nil => simp [upsert, alookup_cons]
  | cons a l ih =>
      rw [upsert]
      by_cases ha : a.1 = k
      · rw [if_pos ha, alookup_cons, if_pos rfl]
      · rw [if_neg ha, alookup_cons, if_neg ha]
        exact ih

theorem alookup_upsert_ne (l : List (κ × β)) (k k' : κ) (v : β) (h : k' ≠ k) :
    alookup (upsert l k v) k' = alookup l k' := by
  induction l with
  | nil =>
      rw [upsert, alookup_cons, if_neg (Ne.symm h)]
  | cons a l ih =>
      rw [upsert]
      by_cases ha : a.1 = k
      · rw [if_pos ha, alookup_cons, alookup_cons,
          if_neg (show ¬ ((k, v) : κ × β).1 = k' from Ne.symm h),
          if_neg (show ¬ a.1 = k' from fun hc => h (hc.symm.trans ha))]
      · rw [if_neg ha, alookup_cons, alookup_cons]
        by_cases ha' : a.1 = k'
        · rw [if_pos ha', if_pos ha']
        · rw [if_neg ha', if_neg ha']
          exact ih

theorem mem_upsert (l : List (κ × β)) (k : κ) (v : β) (p : κ × β)
    (h : p ∈ upsert l k v) : p = (k, v) ∨ p ∈ l := by
  induction l with
  | nil => simpa [upsert] using h
  | cons a l ih =>
      rw [upsert] at h
      by_cases ha : a.1 = k
      · rw [if_pos ha] at h
        rcases List.mem_cons.1 h with rfl | hm
        · exact Or.inl rfl
        · exact Or.inr (List.mem_cons_of_mem a hm)
      · rw [if_neg ha] at h
        rcases List.mem_cons.1 h with rfl | hm
        · exact Or.inr (by simp)
        · rcases ih hm with h' | h'
          · exact Or.inl h'
          · exact Or.inr (List.mem_cons_of_mem a h')

theorem alookup_erase_self (l : List (κ × β)) (k : κ) :
    alookup (aerase l k) k = none := by
  induction l with
  | nil => rfl
  | cons a l ih =>
      rw [aerase] at ih ⊢
      rw [List.filter_cons]
      by_cases ha : a.1 = k
      · rw [if_neg (by simp [ha])]
        exact ih
      · rw [if_pos (by simp [ha]), alookup_cons, if_neg ha]
        exact ih

theorem alookup_erase_ne (l : List (κ × β)) (k k' : κ) (h : k' ≠ k) :
    alookup (aerase l k) k' = alookup l k' := by
  induction l with
  | nil => rfl
  | cons a l ih =>
      rw [aerase] at ih ⊢
      rw [List.filter_cons]
      by_cases ha : a.1 = k
      · rw [if_neg (by simp [ha])]
        rw [ih, alookup_cons, if_neg (show ¬ a.1 = k' from
          fun hc => h (hc.symm.trans ha))]
      · rw [if_pos (by simp [ha]), alookup_cons, alookup_cons]
        by_cases ha' : a.1 = k'
        · rw [if_pos ha', if_pos ha']
        · rw [if_neg ha', if_neg ha']
          exact ih

theorem mem_aerase (l : List (κ × β)) (k : κ) (p : κ × β)
    (h : p ∈ aerase l k) : p ∈ l :=
  List.mem_of_mem_filter h

theorem key_ne_of_mem_aerase (l : List (κ × β)) (k : κ) (p : κ × β)
    (h : p ∈ aerase l k) : p.1 ≠ k := by
  have := List.of_mem_filter h
  simpa using this

theorem nodup_akeys_aerase (l : List (κ × β)) (k : κ)
    (h : (akeys l).Nodup) : (akeys (aerase l k)).Nodup := by
  have hsub : List.Sublist (aerase l k) l := List.filter_sublist l
  have h2 := hsub.map (f := Prod.fst)
  simp only [akeys] at h ⊢
  exact List.Nodup.sublist h2 h

theorem mem_of_alookup_eq_some (l : List (κ × β)) (k : κ) (v : β)
    (h : alookup l k = some v) : (k, v) ∈ l := by
  induction l with
  | nil => simp [alookup_nil] at h
  | cons a l ih =>
      rw [alookup_cons] at h
      by_cases ha : a.1 = k
      · rw [if_pos ha] at h
        obtain ⟨a1, a2⟩ := a
        simp only [Option.some_inj] at h
        have h1 : a1 = k := by simpa using ha
        rw [List.mem_cons]
        refine Or.inl ?_
        rw [← h1, ← h]
      · rw [if_neg ha] at h
        exact List.mem_cons_of_mem a (ih h)

theorem alookup_eq_some_of_mem (l : List (κ × β)) (k : κ) (v : β)
    (hnd : (akeys l).Nodup) (h : (k, v) ∈ l) : alookup l k = some v := by
  induction l with
  | nil => cases h
  | cons a l ih =>
      have hnd2 : a.1 ∉ List.map Prod.fst l ∧ (List.map Prod.fst l).Nodup := by
        have hh : (List.map Prod.fst (a :: l)).Nodup := hnd
        rw [List.map_cons, List.nodup_cons] at hh
        exact hh
      rw [alookup_cons]
      rcases List.mem_cons.1 h with rfl | hm
      · rw [if_pos rfl]
      · by_cases ha : a.1 = k
        · exfalso
          apply hnd2.1
          rw [ha]
          exact List.mem_map.2 ⟨(k, v), hm, rfl⟩
        · rw [if_neg ha]
          exact ih hnd2.2 hm

end AssocListLemmas

/-! ### Connection-state and id-generation lemmas -/

theorem games_setConn (st : ServerState) (sid : SocketId) (c : ConnState) :
    (setConn st sid c).games = st.games := rfl

theorem getConn_setConn_self (st : ServerState) (sid : SocketId) (c : ConnState) :
    getConn (setConn st sid c) sid = c := by
  simp [getConn, setConn, alookup_upsert_self]

theorem getConn_setConn_ne (st : ServerState) (sid sid' : SocketId) (c : ConnState)
    (h : sid' ≠ sid) : getConn (setConn st sid c) sid' = getConn st sid' := by
  simp [getConn, setConn, alookup_upsert_ne _ _ _ _ h]

theorem genGameID_fresh (games : List (GameCode × Session)) (cands : List GameCode)
    (c : GameCode) (h : genGameID games cands = some c) :
    alookup games c = none := by
  have := List.find?_some h
  simpa [Option.isNone_iff_eq_none] using this
/-! ### Branch lemmas: one per control path of each handler -/

theorem handleCG_none (st : ServerState) (sid : SocketId) (p : String) (d : Int)
    (g : GameData) (cands : List GameCode) (now : Nat)
    (h : genGameID st.games cands = none) :
    handleCG st sid p d g cands now = none := by
  simp [handleCG, h]

theorem handleCG_some (st : ServerState) (sid : SocketId) (p : String) (d : Int)
    (g : GameData) (cands : List GameCode) (now : Nat) (gid : GameCode)
    (h : genGameID st.games cands = some gid) :
    handleCG st sid p d g cands now =
      some (⟨gid, gameNameFor p, now, d⟩,
        ⟨upsert st.games gid ⟨gameNameFor p, d, p, none, now, g, sid, none⟩,
         upsert st.conns sid ⟨some gid, some Role.master⟩⟩) := by
  simp [handleCG, h, setConn]

theorem handleJG_notFound (st : ServerState) (sid : SocketId) (gid : GameCode)
    (p : String) (h : alookup st.games gid = none) :
    handleJG st sid gid p = (⟨some ⟨false, some errNotFound⟩, [], false⟩, st) := by
  simp [handleJG, h]

theorem handleJG_collision (st : ServerState) (sid : SocketId) (gid : GameCode)
    (p : String) (sess : Session) (h : alookup st.games gid = some sess)
    (hc : sess.playersMaster = p) :
    handleJG st sid gid p = (⟨some ⟨false, some errNameCollision⟩, [], false⟩, st) := by
  simp [handleJG, h, hc]

theorem handleJG_ok (st : ServerState) (sid : SocketId) (gid : GameCode)
    (p : String) (sess : Session) (h : alookup st.games gid = some sess)
    (hc : ¬ sess.playersMaster = p) :
    handleJG st sid gid p =
      (⟨some ⟨true, none⟩,
        [(sess.socketsMaster, Notif.GS), (sid, Notif.PP sess.data)], false⟩,
       ⟨upsert st.games gid
          { sess with playersSlave := some p, socketsSlave := some sid },
        upsert st.conns sid ⟨some gid, some Role.slave⟩⟩) := by
  simp [handleJG, h, hc, setConn]

theorem handleM_forbidden (st : ServerState) (sid : SocketId) (d : GameData)
    (h : ¬ (getConn st sid).role = some Role.slave) :
    handleM st sid d = (⟨some ⟨false, some errNotSlave⟩, [], false⟩, st) := by
  simp [handleM, h]

theorem handleM_crash_noGame (st : ServerState) (sid : SocketId) (d : GameData)
    (hrole : (getConn st sid).role = some Role.slave)
    (hgid : (getConn st sid).gameID = none) :
    handleM st sid d = (⟨none, [], true⟩, st) := by
  simp [handleM, hrole, hgid]

theorem handleM_crash_deleted (st : ServerState) (sid : SocketId) (d : GameData)
    (gid : GameCode) (hrole : (getConn st sid).role = some Role.slave)
    (hgid : (getConn st sid).gameID = some gid)
    (hlook : alookup st.games gid = none) :
    handleM st sid d = (⟨none, [], true⟩, st) := by
  simp [handleM, hrole, hgid, hlook]

theorem handleM_ok (st : ServerState) (sid : SocketId) (d : GameData)
    (gid : GameCode) (sess : Session)
    (hrole : (getConn st sid).role = some Role.slave)
    (hgid : (getConn st sid).gameID = some gid)
    (hlook : alookup st.games gid = some sess) :
    handleM st sid d =
      (⟨some ⟨true, none⟩, [(sess.socketsMaster, Notif.PP d)], false⟩,
       ⟨upsert st.games gid { sess with data := d }, st.conns⟩) := by
  simp [handleM, hrole, hgid, hlook]

theorem handleET_forbidden (st : ServerState) (sid : SocketId) (d : GameData)
    (h : ¬ (getConn st sid).role = some Role.master) :
    handleET st sid d = (⟨some ⟨false, some errNotMaster⟩, [], false⟩, st) := by
  simp [handleET, h]

theorem handleET_crash_noGame (st : ServerState) (sid : SocketId) (d : GameData)
    (hrole : (getConn st sid).role = some Role.master)
    (hgid : (getConn st sid).gameID = none) :
    handleET st sid d = (⟨none, [], true⟩, st) := by
  simp [handleET, hrole, hgid]

theorem handleET_crash_deleted (st : ServerState) (sid : SocketId) (d : GameData)
    (gid : GameCode) (hrole : (getConn st sid).role = some Role.master)
    (hgid : (getConn st sid).gameID = some gid)
    (hlook : alookup st.games gid = none) :
    handleET st sid d = (⟨none, [], true⟩, st) := by
  simp [handleET, hrole, hgid, hlook]

theorem handleET_crash_noSlave (st : ServerState) (sid : SocketId) (d : GameData)
    (gid : GameCode) (sess : Session)
    (hrole : (getConn st sid).role = some Role.master)
    (hgid : (getConn st sid).gameID = some gid)
    (hlook : alookup st.games gid = some sess)
    (hsl : sess.socketsSlave = none) :
    handleET st sid d =
      (⟨some ⟨true, none⟩, [], true⟩,
       ⟨upsert st.games gid { sess with data := d }, st.conns⟩) := by
  simp [handleET, hrole, hgid, hlook, hsl]

theorem handleET_ok (st : ServerState) (sid : SocketId) (d : GameData)
    (gid : GameCode) (sess : Session) (sl : SocketId)
    (hrole : (getConn st sid).role = some Role.master)
    (hgid : (getConn st sid).gameID = some gid)
    (hlook : alookup st.games gid = some sess)
    (hsl : sess.socketsSlave = some sl) :
    handleET st sid d =
      (⟨some ⟨true, none⟩, [(sl, Notif.PP d)], false⟩,
       ⟨upsert st.games gid { sess with data := d }, st.conns⟩) := by
  simp [handleET, hrole, hgid, hlook, hsl]

theorem handleDisconnect_noGame (st : ServerState) (sid : SocketId)
    (h : isFalsyCode (getConn st sid).gameID = true) :
    handleDisconnect st sid = (⟨none, [], false⟩, st) := by
  simp [handleDisconnect, h]

theorem handleDisconnect_crash (st : ServerState) (sid : SocketId) (gid : GameCode)
    (hgid : (getConn st sid).gameID = some gid) (hne : gid.isEmpty = false)
    (hlook : alookup st.games gid = none) :
    handleDisconnect st sid = (⟨none, [], true⟩, st) := by
  simp [handleDisconnect, hgid, isFalsyCode, hne, hlook]

theorem handleDisconnect_noOpp (st : ServerState) (sid : SocketId) (gid : GameCode)
    (sess : Session)
    (hgid : (getConn st sid).gameID = some gid) (hne : gid.isEmpty = false)
    (hlook : alookup st.games gid = some sess)
    (hopp : (if (getConn st sid).role = some Role.master then sess.socketsSlave
             else some sess.socketsMaster) = none) :
    handleDisconnect st sid =
      (⟨none, [], false⟩, ⟨aerase st.games gid, st.conns⟩) := by
  simp [handleDisconnect, hgid, isFalsyCode, hne, hlook, hopp]

theorem handleDisconnect_opp (st : ServerState) (sid : SocketId) (gid : GameCode)
    (sess : Session) (opp : SocketId)
    (hgid : (getConn st sid).gameID = some gid) (hne : gid.isEmpty = false)
    (hlook : alookup st.games gid = some sess)
    (hopp : (if (getConn st sid).role = some Role.master then sess.socketsSlave
             else some sess.socketsMaster) = some opp) :
    handleDisconnect st sid =
      (⟨none, [(opp, Notif.EG)], false⟩,
       ⟨aerase st.games gid, upsert st.conns opp ⟨none, none⟩⟩) := by
  simp [handleDisconnect, hgid, isFalsyCode, hne, hlook, hopp, setConn]

/-! ### Reachability invariant: registry keys are pairwise unique, and within
each session `players.slave` and `sockets.slave` are set together (both are
written only by the `JG` handler, in one step). -/

theorem regInv_init : RegInv ServerState.init := by
  constructor
  · simp [ServerState.init, akeys]
  · intro p hp
    simp [ServerState.init] at hp

theorem regInv_upsert (st : ServerState) (gid : GameCode) (sess : Session)
    (h : RegInv st) (hs : sess.playersSlave = none ↔ sess.socketsSlave = none) :
    RegInv ⟨upsert st.games gid sess, st.conns⟩ := by
  obtain ⟨hnd, hsync⟩ := h
  refine ⟨nodup_akeys_upsert st.games gid sess hnd, ?_⟩
  intro q hq
  rcases mem_upsert st.games gid sess q hq with rfl | hq'
  · exact hs
  · exact hsync q hq'

theorem regInv_games (st st' : ServerState) (h : RegInv st)
    (hg : st'.games = st.games) : RegInv st' := by
  obtain ⟨hnd, hsync⟩ := h
  exact ⟨by rw [hg]; exact hnd, by rw [hg]; exact hsync⟩

theorem regInv_step (st : ServerState) (e : Event) (h : RegInv st) :
    RegInv (step st e) := by
  cases e with
  | lg sid => exact h
  | cg sid p d g cands now =>
      rw [step]
      cases hgen : genGameID st.games cands with
      | none => rw [handleCG_none st sid p d g cands now hgen]; exact h
      | some gid =>
          rw [handleCG_some st sid p d g cands now gid hgen]
          exact regInv_games _ _
            (regInv_upsert st gid _ h (by simp)) rfl
  | jg sid gid p =>
      rw [step]
      cases hlook : alookup st.games gid with
      | none => rw [handleJG_notFound st sid gid p hlook]; exact h
      | some sess =>
          by_cases hc : sess.playersMaster = p
          · rw [handleJG_collision st sid gid p sess hlook hc]; exact h
          · rw [handleJG_ok st sid gid p sess hlook hc]
            exact regInv_games _ _
              (regInv_upsert st gid _ h (by simp)) rfl
  | m sid d =>
      rw [step]
      by_cases hrole : (getConn st sid).role = some Role.slave
      · cases hgid : (getConn st sid).gameID with
        | none => rw [handleM_crash_noGame st sid d hrole hgid]; exact h
        | some gid =>
            cases hlook : alookup st.games gid with
            | none => rw [handleM_crash_deleted st sid d gid hrole hgid hlook]; exact h
            | some sess =>
                rw [handleM_ok st sid d gid sess hrole hgid hlook]
                refine regInv_upsert st gid _ h ?_
                have hm := mem_of_alookup_eq_some st.games gid sess hlook
                exact h.2 (gid, sess) hm
      · rw [handleM_forbidden st sid d hrole]; exact h
  | et sid d =>
      rw [step]
      by_cases hrole : (getConn st sid).role = some Role.master
      · cases hgid : (getConn st sid).gameID with
        | none => rw [handleET_crash_noGame st sid d hrole hgid]; exact h
        | some gid =>
            cases hlook : alookup st.games gid with
            | none => rw [handleET_crash_deleted st sid d gid hrole hgid hlook]; exact h
            | some sess =>
                have hd : RegInv ⟨upsert st.games gid { sess with data := d }, st.conns⟩ := by
                  refine regInv_upsert st gid _ h ?_
                  have hm := mem_of_alookup_eq_some st.games gid sess hlook
                  exact h.2 (gid, sess) hm
                cases hsl : sess.socketsSlave with
                | none =>
                    rw [handleET_crash_noSlave st sid d gid sess hrole hgid hlook hsl]
                    exact hd
                | some sl =>
                    rw [handleET_ok st sid d gid sess sl hrole hgid hlook hsl]
                    exact hd
      · rw [handleET_forbidden st sid d hrole]; exact h
  | disc sid =>
      rw [step]
      cases hfal : isFalsyCode (getConn st sid).gameID with
      | true => rw [handleDisconnect_noGame st sid hfal]; exact h
      | false =>
          cases hgid : (getConn st sid).gameID with
          | none => rw [hgid] at hfal; simp [isFalsyCode] at hfal
          | some gid =>
              have hne : gid.isEmpty = false := by
                rw [hgid] at hfal
                simpa [isFalsyCode] using hfal
              cases hlook : alookup st.games gid with
              | none => rw [handleDisconnect_crash st sid gid hgid hne hlook]; exact h
              | some sess =>
                  have herase' : RegInv ⟨aerase st.games gid, st.conns⟩ := by
                    refine ⟨nodup_akeys_aerase st.games gid h.1, ?_⟩
                    intro q hq
                    exact h.2 q (mem_aerase st.games gid q hq)
                  cases hopp : (if (getConn st sid).role = some Role.master
                      then sess.socketsSlave else some sess.socketsMaster) with
                  | none =>
                      rw [handleDisconnect_noOpp st sid gid sess hgid hne hlook hopp]
                      exact herase'
                  | some opp =>
                      rw [handleDisconnect_opp st sid gid sess opp hgid hne hlook hopp]
                      exact regInv_games _ _ herase' rfl

theorem regInv_run (st : ServerState) (es : List Event) (h : RegInv st) :
    RegInv (run st es) := by
  induction es generalizing st with
  | nil => exact h
  | cons e es ih => exact ih (step st e) (regInv_step st e h)

theorem reachable_regInv (st : ServerState) (h : Reachable st) : RegInv st := by
  obtain ⟨es, hes⟩ := h
  rw [← hes]
  exact regInv_run ServerState.init es regInv_init

/-! ### Claim theorems -/

/-- C6: `join(code, joinerName)` fails with NotFound iff the code is not a
registry key, fails with NameCollision iff the joiner name equals the
session's initiator name; otherwise it records joinerName/joinerEndpoint,
sets the caller's connection state to {code, Joiner}, notifies the
initiator endpoint "game started" and the joiner endpoint "play your turn"
with the session's current turn data. -/
theorem c6_join_characterization (st : ServerState) (sid : SocketId)
    (gid : GameCode) (p : String) :
    (alookup st.games gid = none →
      handleJG st sid gid p = (⟨some ⟨false, some errNotFound⟩, [], false⟩, st)) ∧
    (∀ sess : Session, alookup st.games gid = some sess →
      sess.playersMaster = p →
      handleJG st sid gid p = (⟨some ⟨false, some errNameCollision⟩, [], false⟩, st)) ∧
    (∀ sess : Session, alookup st.games gid = some sess →
      ¬ sess.playersMaster = p →
      (handleJG st sid gid p).1 = ⟨some ⟨true, none⟩,
        [(sess.socketsMaster, Notif.GS), (sid, Notif.PP sess.data)], false⟩ ∧
      alookup (handleJG st sid gid p).2.games gid =
        some { sess with playersSlave := some p, socketsSlave := some sid } ∧
      getConn (handleJG st sid gid p).2 sid = ⟨some gid, some Role.slave⟩) := by
  refine ⟨fun h => handleJG_notFound st sid gid p h,
    fun sess h hc => handleJG_collision st sid gid p sess h hc,
    fun sess h hc => ?_⟩
  rw [handleJG_ok st sid gid p sess h hc]
  refine ⟨rfl, alookup_upsert_self st.games gid _, ?_⟩
  simp [getConn, alookup_upsert_self]

theorem c6_join_characterization_witness :
    handleJG c6wState 1 "zz" "Eve" =
      (⟨some ⟨false, some errNotFound⟩, [], false⟩, c6wState) ∧
    handleJG c6wState 1 "gJ" "Dana" =
      (⟨some ⟨false, some errNameCollision⟩, [], false⟩, c6wState) ∧
    (handleJG c6wState 1 "gJ" "Eve").1 = ⟨some ⟨true, none⟩,
      [(0, Notif.GS), (1, Notif.PP [3])], false⟩ :=
  ⟨(c6_join_characterization c6wState 1 "zz" "Eve").1 (by decide),
   (c6_join_characterization c6wState 1 "gJ" "Dana").2.1
     ⟨"Dana's Game", 2, "Dana", none, 5, [3], 0, none⟩ (by decide) (by decide),
   ((c6_join_characterization c6wState 1 "gJ" "Eve").2.2
     ⟨"Dana's Game", 2, "Dana", none, 5, [3], 0, none⟩ (by decide) (by decide)).1⟩

/-- C7: session codes are pairwise unique within the registry in every
reachable state, and the generate-then-check loop of `CG` only ever returns
a candidate that is not a current registry key. -/
theorem c7_codes_unique (st : ServerState) (h : Reachable st) :
    (akeys st.games).Nodup ∧
    (∀ cands gid, genGameID st.games cands = some gid →
      gid ∉ akeys st.games ∧ alookup st.games gid = none) := by
  refine ⟨(reachable_regInv st h).1, fun cands gid hg => ?_⟩
  have := genGameID_fresh st.games cands gid hg
  exact ⟨(alookup_eq_none_iff st.games gid).1 this, this⟩

theorem c7_codes_unique_witness :
    (akeys c7wState.games).Nodup ∧ alookup c7wState.games "ii" = none :=
  ⟨(c7_codes_unique c7wState ⟨c7wEvents, rfl⟩).1,
   ((c7_codes_unique c7wState ⟨c7wEvents, rfl⟩).2 ["ii"] "ii" (by decide)).2⟩

/-- C8: in every reachable state, an entry appears in `listJoinable` iff the
registry holds a session under that code with no joiner endpoint, and the
entry carries that session's code, name, creation time and difficulty. -/
theorem c8_listJoinable (st : ServerState) (h : Reachable st) :
    ∀ e : GameEntry, e ∈ handleLG st ↔
      ∃ sess : Session, alookup st.games e.id = some sess ∧
        sess.socketsSlave = none ∧
        e = ⟨e.id, sess.name, sess.created, sess.difficulty⟩ := by
  obtain ⟨hnd, hsync⟩ := reachable_regInv st h
  intro e
  constructor
  · intro he
    rw [handleLG, List.mem_map] at he
    obtain ⟨q, hq, hqe⟩ := he
    rw [List.mem_filter] at hq
    obtain ⟨hqmem, hqslave⟩ := hq
    have hps : q.2.playersSlave = none := by simpa using hqslave
    have hid : e.id = q.1 := by rw [← hqe]
    refine ⟨q.2, ?_, (hsync q hqmem).1 hps, ?_⟩
    · rw [hid]
      exact alookup_eq_some_of_mem st.games q.1 q.2 hnd (by simpa using hqmem)
    · rw [← hqe]
  · rintro ⟨sess, hlook, hsl, he⟩
    have hmem : (e.id, sess) ∈ st.games :=
      mem_of_alookup_eq_some st.games e.id sess hlook
    rw [handleLG, List.mem_map]
    refine ⟨(e.id, sess), ?_, ?_⟩
    · rw [List.mem_filter]
      exact ⟨hmem, by simpa using (hsync (e.id, sess) hmem).2 hsl⟩
    · rw [← he]

theorem c8_listJoinable_witness :
    (⟨"aa", "Ada's Game", 1, 1⟩ : GameEntry) ∈ handleLG c8wState :=
  (c8_listJoinable c8wState ⟨c8wEvents, rfl⟩ ⟨"aa", "Ada's Game", 1, 1⟩).2
    ⟨⟨"Ada's Game", 1, "Ada", none, 1, [0], 0, none⟩,
     by decide, by decide, by decide⟩

/-- C9: `CG` derives the display name by appending "' Game" when the
initiator name's last character is 's' and "'s Game" otherwise; the
registered session and the response carry that name; in particular "Jack"
yields "Jack's Game" and "Chris" yields "Chris' Game". -/
theorem c9_name_derivation :
    (∀ st sid p d g cands now r st',
      handleCG st sid p d g cands now = some (r, st') →
        r.name = (if p.data.getLast? = some 's'
          then p ++ "' Game" else p ++ "'s Game") ∧
        (alookup st'.games r.id).map Session.name = some r.name) ∧
    gameNameFor "Jack" = "Jack's Game" ∧
    gameNameFor "Chris" = "Chris' Game" := by
  refine ⟨?_, by decide, by decide⟩
  intro st sid p d g cands now r st' hcg
  cases hgen : genGameID st.games cands with
  | none => rw [handleCG_none st sid p d g cands now hgen] at hcg; cases hcg
  | some gid =>
      rw [handleCG_some st sid p d g cands now gid hgen] at hcg
      simp only [Option.some_inj, Prod.mk.injEq] at hcg
      obtain ⟨rfl, rfl⟩ := hcg
      constructor
      · by_cases hp : p.data.getLast? = some 's' <;> simp [gameNameFor, hp]
      · simp [alookup_upsert_self]

theorem c9_name_derivation_witness :
    (⟨"cc", "Chris' Game", 9, 3⟩ : GameEntry).name =
      (if "Chris".data.getLast? = some 's'
        then "Chris" ++ "' Game" else "Chris" ++ "'s Game") :=
  (c9_name_derivation.1 ServerState.init 0 "Chris" 3 [1] ["cc"] 9
    ⟨"cc", "Chris' Game", 9, 3⟩ c9wState (by decide)).1

/-- C10: `join` never rejects a session for already having a joiner: when
the session's joiner endpoint is present and the new name differs from the
initiator's, join succeeds and overwrites both joiner name and joiner
endpoint with the caller's, while the replaced joiner's connection state
still references the session with role Joiner. -/
theorem c10_join_overwrite (st : ServerState) (sid oldSid : SocketId)
    (gid : GameCode) (p : String) (sess : Session)
    (hlook : alookup st.games gid = some sess)
    (_hsl : sess.socketsSlave = some oldSid)
    (hname : ¬ sess.playersMaster = p)
    (hconn : getConn st oldSid = ⟨some gid, some Role.slave⟩)
    (hne : oldSid ≠ sid) :
    (handleJG st sid gid p).1.response = some ⟨true, none⟩ ∧
    (handleJG st sid gid p).1.crashed = false ∧
    alookup (handleJG st sid gid p).2.games gid =
      some { sess with playersSlave := some p, socketsSlave := some sid } ∧
    getConn (handleJG st sid gid p).2 oldSid = ⟨some gid, some Role.slave⟩ := by
  rw [handleJG_ok st sid gid p sess hlook hname]
  refine ⟨rfl, rfl, alookup_upsert_self st.games gid _, ?_⟩
  show (alookup (upsert st.conns sid _) oldSid).getD ConnState.empty = _
  rw [alookup_upsert_ne st.conns sid oldSid _ hne]
  exact hconn

theorem c10_join_overwrite_witness :
    (handleJG c10wState 2 "gw" "Cal").1.response = some ⟨true, none⟩ ∧
    (handleJG c10wState 2 "gw" "Cal").1.crashed = false ∧
    alookup (handleJG c10wState 2 "gw" "Cal").2.games "gw" =
      some { c10wSess with playersSlave := some "Cal", socketsSlave := some 2 } ∧
    getConn (handleJG c10wState 2 "gw" "Cal").2 1 =
      ⟨some "gw", some Role.slave⟩ :=
  c10_join_overwrite c10wState 2 1 "gw" "Cal" c10wSess
    (by decide) (by decide) (by decide) (by decide) (by decide)

/-- C1 counterexample: in a reachable state (one socket created a game and
nobody joined), the initiator's `ET` does not return a structured error:
it responds ok, mutates the session's turn data, and then throws on
`games[id].sockets.slave.emit` because `sockets.slave` is null — an
uncaught failure from a handler, contradicting the claim that no handler
ever raises one. -/
theorem c1_counterexample :
    Reachable c1xState ∧
    (handleET c1xState 4 [2]).1.crashed = true ∧
    (handleET c1xState 4 [2]).1.response = some ⟨true, none⟩ ∧
    (alookup (handleET c1xState 4 [2]).2.games "gx").map Session.data =
      some [2] :=
  ⟨⟨c1xEvents, rfl⟩, by decide, by decide, by decide⟩

/-- C1 (amended): the three taxonomy validations (unknown session and name
collision on `JG`, wrong role on `M` and on `ET`) each return a structured
`{ok:false, error}` result synchronously and leave the whole server state
unchanged; the original claim's "no handler ever raises an uncaught
failure" clause does not hold (see the counterexample). -/
theorem c1_validation_amended :
    (∀ st sid gid p, alookup st.games gid = none →
      handleJG st sid gid p = (⟨some ⟨false, some errNotFound⟩, [], false⟩, st)) ∧
    (∀ st sid gid p sess, alookup st.games gid = some sess →
      sess.playersMaster = p →
      handleJG st sid gid p = (⟨some ⟨false, some errNameCollision⟩, [], false⟩, st)) ∧
    (∀ st sid d, ¬ (getConn st sid).role = some Role.slave →
      handleM st sid d = (⟨some ⟨false, some errNotSlave⟩, [], false⟩, st)) ∧
    (∀ st sid d, ¬ (getConn st sid).role = some Role.master →
      handleET st sid d = (⟨some ⟨false, some errNotMaster⟩, [], false⟩, st)) :=
  ⟨fun st sid gid p h => handleJG_notFound st sid gid p h,
   fun st sid gid p sess h hc => handleJG_collision st sid gid p sess h hc,
   fun st sid d h => handleM_forbidden st sid d h,
   fun st sid d h => handleET_forbidden st sid d h⟩

theorem c1_validation_amended_witness :
    handleJG c1wState 1 "zz" "Eve" =
      (⟨some ⟨false, some errNotFound⟩, [], false⟩, c1wState) ∧
    handleJG c1wState 1 "gh" "Hal" =
      (⟨some ⟨false, some errNameCollision⟩, [], false⟩, c1wState) ∧
    handleM c1wState 1 [9] =
      (⟨some ⟨false, some errNotSlave⟩, [], false⟩, c1wState) ∧
    handleET c1wState 9 [9] =
      (⟨some ⟨false, some errNotMaster⟩, [], false⟩, c1wState) :=
  ⟨c1_validation_amended.1 c1wState 1 "zz" "Eve" (by decide),
   c1_validation_amended.2.1 c1wState 1 "gh" "Hal"
     ⟨"Hal's Game", 1, "Hal", none, 3, [0], 0, none⟩ (by decide) (by decide),
   c1_validation_amended.2.2.1 c1wState 1 [9] (by decide),
   c1_validation_amended.2.2.2 c1wState 9 [9] (by decide)⟩

/-- C2 counterexample: a reachable state whose connection 0 has role
Initiator, yet `ET` does not succeed as claimed: no "play your turn"
notification is emitted to any joiner endpoint (there is none) and the
handler throws. -/
theorem c2_counterexample :
    Reachable c2xState ∧
    (getConn c2xState 0).role = some Role.master ∧
    (handleET c2xState 0 [9]).1.emits = [] ∧
    (handleET c2xState 0 [9]).1.crashed = true :=
  ⟨⟨c2xEvents, rfl⟩, by decide, by decide, by decide⟩

/-- C2 (amended): when the caller's role is Initiator AND its session is
still registered AND has a joiner endpoint, `ET` stores the data, responds
ok, and notifies the joiner endpoint "play your turn" with the data; a
caller whose role is not Initiator gets the Forbidden error with the state
unchanged. -/
theorem c2_endTurn_amended :
    (∀ st sid d gid sess sl,
      (getConn st sid).role = some Role.master →
      (getConn st sid).gameID = some gid →
      alookup st.games gid = some sess →
      sess.socketsSlave = some sl →
      (handleET st sid d).1 = ⟨some ⟨true, none⟩, [(sl, Notif.PP d)], false⟩ ∧
      alookup (handleET st sid d).2.games gid = some { sess with data := d }) ∧
    (∀ st sid d, ¬ (getConn st sid).role = some Role.master →
      handleET st sid d = (⟨some ⟨false, some errNotMaster⟩, [], false⟩, st)) := by
  constructor
  · intro st sid d gid sess sl hrole hgid hlook hsl
    rw [handleET_ok st sid d gid sess sl hrole hgid hlook hsl]
    exact ⟨rfl, alookup_upsert_self st.games gid _⟩
  · intro st sid d h
    exact handleET_forbidden st sid d h

theorem c2_endTurn_amended_witness :
    (handleET c2wState 0 [4]).1 = ⟨some ⟨true, none⟩, [(1, Notif.PP [4])], false⟩ ∧
    alookup (handleET c2wState 0 [4]).2.games "gi" =
      some { c2wSess with data := [4] } :=
  c2_endTurn_amended.1 c2wState 0 [4] "gi" c2wSess 1
    (by decide) (by decide) (by decide) (by decide)

/-- C3 counterexample: a reachable state (a second joiner replaced the
first, then the initiator disconnected, deleting the session but leaving
the replaced joiner's connection state untouched) where connection 1 has
role Joiner and a set session code, yet `M` neither succeeds nor returns
Forbidden: it throws before reaching `respond`. -/
theorem c3_counterexample :
    Reachable c3xState ∧
    getConn c3xState 1 = ⟨some "g1", some Role.slave⟩ ∧
    (handleM c3xState 1 [5]).1.response = none ∧
    (handleM c3xState 1 [5]).1.crashed = true :=
  ⟨⟨c3xEvents, rfl⟩, by decide, by decide, by decide⟩

/-- C3 (amended): `move` succeeds iff the caller's role is Joiner and its
session code names a session still present in the registry: then it stores
the data, notifies the initiator endpoint "play your turn" with the data
and returns ok. A caller whose role is not Joiner gets Forbidden with the
state unchanged; a Joiner whose session code is unset or names a deleted
session makes the handler throw (state unchanged) instead of Forbidden. -/
theorem c3_move_amended :
    (∀ st sid d gid sess,
      (getConn st sid).role = some Role.slave →
      (getConn st sid).gameID = some gid →
      alookup st.games gid = some sess →
      (handleM st sid d).1 = ⟨some ⟨true, none⟩,
        [(sess.socketsMaster, Notif.PP d)], false⟩ ∧
      alookup (handleM st sid d).2.games gid = some { sess with data := d }) ∧
    (∀ st sid d, ¬ (getConn st sid).role = some Role.slave →
      handleM st sid d = (⟨some ⟨false, some errNotSlave⟩, [], false⟩, st)) ∧
    (∀ st sid d gid,
      (getConn st sid).role = some Role.slave →
      (getConn st sid).gameID = some gid →
      alookup st.games gid = none →
      handleM st sid d = (⟨none, [], true⟩, st)) ∧
    (∀ st sid d,
      (getConn st sid).role = some Role.slave →
      (getConn st sid).gameID = none →
      handleM st sid d = (⟨none, [], true⟩, st)) := by
  refine ⟨?_, ?_, ?_, ?_⟩
  · intro st sid d gid sess hrole hgid hlook
    rw [handleM_ok st sid d gid sess hrole hgid hlook]
    exact ⟨rfl, alookup_upsert_self st.games gid _⟩
  · intro st sid d h
    exact handleM_forbidden st sid d h
  · intro st sid d gid hrole hgid hlook
    exact handleM_crash_deleted st sid d gid hrole hgid hlook
  · intro st sid d hrole hgid
    exact handleM_crash_noGame st sid d hrole hgid

theorem c3_move_amended_witness :
    (handleM c3wState 1 [8]).1 = ⟨some ⟨true, none⟩, [(0, Notif.PP [8])], false⟩ ∧
    alookup (handleM c3wState 1 [8]).2.games "gm" =
      some { c3wSess with data := [8] } :=
  c3_move_amended.1 c3wState 1 [8] "gm" c3wSess
    (by decide) (by decide) (by decide)

/-- C4 counterexample: the server enforces no alternation. After a join and
an accepted Move by the Joiner, a second consecutive Move by the same
Joiner is accepted again (ok response) and overwrites turnData, where the
claim requires it to fail with Forbidden and leave turnData unchanged. -/
theorem c4_counterexample :
    Reachable c4xState ∧
    (handleM c4xPre 1 [1]).1.response = some ⟨true, none⟩ ∧
    step c4xPre (Event.m 1 [1]) = c4xState ∧
    (handleM c4xState 1 [2]).1.response = some ⟨true, none⟩ ∧
    (alookup (handleM c4xState 1 [2]).2.games "g4").map Session.data =
      some [2] :=
  ⟨⟨c4xEvents, rfl⟩, by decide, by decide, by decide, by decide⟩

/-- C4 (amended): acceptance of `M`/`ET` depends only on the caller's role
(and, for success, the session still being registered), with no alternation
tracking: a role-mismatched call fails with Forbidden leaving the whole
state unchanged, while a Joiner whose session is registered can run two
consecutive Moves, both accepted. -/
theorem c4_role_gating_amended :
    (∀ st sid d, ¬ (getConn st sid).role = some Role.slave →
      handleM st sid d = (⟨some ⟨false, some errNotSlave⟩, [], false⟩, st)) ∧
    (∀ st sid d, ¬ (getConn st sid).role = some Role.master →
      handleET st sid d = (⟨some ⟨false, some errNotMaster⟩, [], false⟩, st)) ∧
    (∀ st sid d d' gid sess,
      (getConn st sid).role = some Role.slave →
      (getConn st sid).gameID = some gid →
      alookup st.games gid = some sess →
      (handleM st sid d).1.response = some ⟨true, none⟩ ∧
      (handleM (handleM st sid d).2 sid d').1.response = some ⟨true, none⟩) := by
  refine ⟨fun st sid d h => handleM_forbidden st sid d h,
    fun st sid d h => handleET_forbidden st sid d h, ?_⟩
  intro st sid d d' gid sess hrole hgid hlook
  rw [handleM_ok st sid d gid sess hrole hgid hlook]
  refine ⟨rfl, ?_⟩
  have hrole' : (getConn (⟨upsert st.games gid { sess with data := d },
      st.conns⟩ : ServerState) sid).role = some Role.slave := hrole
  have hgid' : (getConn (⟨upsert st.games gid { sess with data := d },
      st.conns⟩ : ServerState) sid).gameID = some gid := hgid
  rw [handleM_ok _ sid d' gid { sess with data := d } hrole' hgid'
    (alookup_upsert_self st.games gid _)]

theorem c4_role_gating_amended_witness :
    handleM c4wState 0 [1] =
      (⟨some ⟨false, some errNotSlave⟩, [], false⟩, c4wState) ∧
    handleET c4wState 1 [1] =
      (⟨some ⟨false, some errNotMaster⟩, [], false⟩, c4wState) ∧
    (handleM c4wState 1 [1]).1.response = some ⟨true, none⟩ ∧
    (handleM (handleM c4wState 1 [1]).2 1 [2]).1.response = some ⟨true, none⟩ :=
  ⟨c4_role_gating_amended.1 c4wState 0 [1] (by decide),
   c4_role_gating_amended.2.1 c4wState 1 [1] (by decide),
   c4_role_gating_amended.2.2 c4wState 1 [1] [2] "g9"
     ⟨"Uma's Game", 1, "Uma", some "Vic", 2, [0], 0, some 1⟩
     (by decide) (by decide) (by decide)⟩

/-- C5 counterexample: a reachable state (replaced joiner left behind after
the initiator's disconnect deleted the session) in which `disconnect` of
connection 1 is neither a no-op nor the claimed cleanup: the connection has
a session code, yet the handler throws on reading the deleted game's
sockets, emitting no "game ended" notification. -/
theorem c5_counterexample :
    Reachable c5xState ∧
    (getConn c5xState 1).gameID = some "g5" ∧
    (handleDisconnect c5xState 1).1.crashed = true ∧
    (handleDisconnect c5xState 1).1.emits = [] :=
  ⟨⟨c5xEvents, rfl⟩, by decide, by decide, by decide⟩

/-- C5 (amended): `disconnect` is a no-op when the connection's session
code is unset (or empty); when the code names a session still present in
the registry, the opposing endpoint by role complement, if present,
receives exactly one "game ended" notification and has its connection
state cleared, and the session is removed, so its code afterwards appears
in neither `listJoinable` nor `join` lookups (NotFound); when the code
names a session no longer registered the handler throws instead. -/
theorem c5_disconnect_amended :
    (∀ st sid, isFalsyCode (getConn st sid).gameID = true →
      handleDisconnect st sid = (⟨none, [], false⟩, st)) ∧
    (∀ st sid gid sess opp,
      (getConn st sid).gameID = some gid → gid.isEmpty = false →
      alookup st.games gid = some sess →
      (if (getConn st sid).role = some Role.master then sess.socketsSlave
       else some sess.socketsMaster) = some opp →
      (handleDisconnect st sid).1 = ⟨none, [(opp, Notif.EG)], false⟩ ∧
      getConn (handleDisconnect st sid).2 opp = ⟨none, none⟩ ∧
      alookup (handleDisconnect st sid).2.games gid = none ∧
      (∀ e ∈ handleLG (handleDisconnect st sid).2, ¬ e.id = gid) ∧
      (∀ sid' p, (handleJG (handleDisconnect st sid).2 sid' gid p).1 =
        ⟨some ⟨false, some errNotFound⟩, [], false⟩)) ∧
    (∀ st sid gid sess,
      (getConn st sid).gameID = some gid → gid.isEmpty = false →
      alookup st.games gid = some sess →
      (if (getConn st sid).role = some Role.master then sess.socketsSlave
       else some sess.socketsMaster) = none →
      handleDisconnect st sid =
        (⟨none, [], false⟩, ⟨aerase st.games gid, st.conns⟩) ∧
      alookup (aerase st.games gid) gid = none) := by
  refine ⟨fun st sid h => handleDisconnect_noGame st sid h, ?_, ?_⟩
  · intro st sid gid sess opp hgid hne hlook hopp
    rw [handleDisconnect_opp st sid gid sess opp hgid hne hlook hopp]
    refine ⟨rfl, ?_, alookup_erase_self st.games gid, ?_, ?_⟩
    · show (alookup (upsert st.conns opp ⟨none, none⟩) opp).getD
        ConnState.empty = ⟨none, none⟩
      rw [alookup_upsert_self st.conns opp ⟨none, none⟩]
      rfl
    · intro e he
      rw [handleLG, List.mem_map] at he
      obtain ⟨q, hq, hqe⟩ := he
      rw [List.mem_filter] at hq
      have hkey := key_ne_of_mem_aerase st.games gid q hq.1
      intro hc
      rw [← hqe] at hc
      exact hkey hc
    · intro sid' p
      rw [handleJG_notFound _ sid' gid p (alookup_erase_self st.games gid)]
  · intro st sid gid sess hgid hne hlook hopp
    rw [handleDisconnect_noOpp st sid gid sess hgid hne hlook hopp]
    exact ⟨rfl, alookup_erase_self st.games gid⟩

theorem c5_disconnect_amended_witness :
    handleDisconnect c5wState 7 = (⟨none, [], false⟩, c5wState) ∧
    (handleDisconnect c5wState 0).1 = ⟨none, [(1, Notif.EG)], false⟩ ∧
    getConn (handleDisconnect c5wState 0).2 1 = ⟨none, none⟩ ∧
    alookup (handleDisconnect c5wState 0).2.games "g6" = none ∧
    (handleJG (handleDisconnect c5wState 0).2 2 "g6" "Moe").1 =
      ⟨some ⟨false, some errNotFound⟩, [], false⟩ :=
  ⟨c5_disconnect_amended.1 c5wState 7 (by decide),
   (c5_disconnect_amended.2.1 c5wState 0 "g6" c5wSess 1
     (by decide) (by decide) (by decide) (by decide)).1,
   (c5_disconnect_amended.2.1 c5wState 0 "g6" c5wSess 1
     (by decide) (by decide) (by decide) (by decide)).2.1,
   (c5_disconnect_amended.2.1 c5wState 0 "g6" c5wSess 1
     (by decide) (by decide) (by decide) (by decide)).2.2.1,
   (c5_disconnect_amended.2.1 c5wState 0 "g6" c5wSess 1
     (by decide) (by decide) (by decide) (by decide)).2.2.2.2 2 "Moe"⟩
